import Mathlib

/-!
Verification of the 3D agents simulation (`agentes3d`).

Shallow embedding of the repository's core modules:
  * `src/agentes/environment.py`  — `EntornoOperacion` (grid generation,
    cell queries, registration, removal);
  * `src/agentes/environmet.py`   — `Entorno3D` (the older environment
    variant whose registration only checks the cell type);
  * `src/agentes/agent_robot.py`  — `AgenteRacionalRobot` (perception,
    decision table, the three effectors, memory);
  * `src/jhunior/agent_robot.py`  — `AgenteRobot` (priority-chain decision
    procedure and rotation tables);
  * `src/agentes/agent_monster.py` — `AgenteReflejoMonstruo` (activation
    gate, probability gate, random move).

Python's mutation is rendered as explicit state passing: a method that
assigns to `self` or to the environment returns the updated structure.
Python's global `random` generator is rendered as a stream of rational
draws threaded explicitly; `random.seed` replaces the stream by one that
depends only on the seed.
-/

namespace Agentes3D

/-- Cell states of the energetic grid: `ZONA_LIBRE = 0`, `ZONA_VACIA = 1`
(environment.py lines 28-29). -/
inductive Zona
  | libre
  | vacia
deriving DecidableEq, Repr

/-- The six orientations of `_ORIENTACIONES` (agent_robot.py lines 7-11). -/
inductive Orientacion
  | pX
  | mX
  | pY
  | mY
  | pZ
  | mZ
deriving DecidableEq, Repr

/-- A coordinate triple; Python coordinates are ints. -/
abbrev Coord := Int × Int × Int

/-- The forward vector of each orientation (agent_robot.py lines 7-11). -/
def orientVect : Orientacion → Coord
  | Orientacion.pX => (1, 0, 0)
  | Orientacion.mX => (-1, 0, 0)
  | Orientacion.pY => (0, 1, 0)
  | Orientacion.mY => (0, -1, 0)
  | Orientacion.pZ => (0, 0, 1)
  | Orientacion.mZ => (0, 0, -1)

/-- `_ORIENTACIONES_CICLICAS = ['+X', '+Y', '-X', '-Y']` (agent_robot.py line 14). -/
def cicloXY : List Orientacion :=
  [Orientacion.pX, Orientacion.pY, Orientacion.mX, Orientacion.mY]

/-- Iteration order of `_ORIENTACIONES.items()` (Python dicts iterate in
insertion order): +X, -X, +Y, -Y, +Z, -Z. -/
def ordenOrientaciones : List Orientacion :=
  [Orientacion.pX, Orientacion.mX, Orientacion.pY, Orientacion.mY, Orientacion.pZ, Orientacion.mZ]

/-- The three effector names of the rational agent. -/
inductive Accion
  | PROPULSOR
  | REORIENTADOR
  | VACUUMATOR
deriving DecidableEq, Repr

/-- The `razon` tags the rational agent's code produces. -/
inductive Razon
  | monstruo_en_celda
  | obstaculo_detectado
  | robot_al_frente
  | monstruo_en_frente
  | alinear_con_monstruo
  | accion_por_defecto
  | avance_exitoso
  | colision_con_pared
  | alineacion_directa_con_monstruo
  | rotacion_lateral
  | monstruo_destruido
  | sin_objetivos
deriving DecidableEq, Repr

/-- Effector parameters: the strings `'+90'`, `'-90'`, or a direction label
such as `'+X'` (agent_robot.py, `_reorientador`). -/
inductive Param
  | mas90
  | menos90
  | dir (o : Orientacion)
deriving DecidableEq, Repr

/-- A reflex monster: `AgenteReflejoMonstruo.__init__` (agent_monster.py
lines 34-55). -/
structure Monstruo where
  id : Int
  x : Int
  y : Int
  z : Int
  pMovimiento : ℚ
  accionesRealizadas : Nat
deriving DecidableEq, Repr

/-- The percept summary stored in the robot's history
(agent_robot.py `actualizar_memoria`, lines 445-452). -/
structure EstadoPerceptual where
  ori : Orientacion
  E : Bool
  R : Bool
  M : Bool
  V : Bool
  posPrev : Coord
deriving DecidableEq, Repr

/-- One history record `{'t', 'p', 'a'}` (agent_robot.py lines 455-459). -/
structure HistRegistro where
  t : Nat
  p : EstadoPerceptual
  a : Accion
deriving DecidableEq, Repr

/-- A rational robot: `AgenteRacionalRobot.__init__` (agent_robot.py lines
51-75).  `memoria` is flattened into its three entries: `historial`,
`vacuscopio_activado` and `posicion_anterior`. -/
structure Robot where
  id : Int
  x : Int
  y : Int
  z : Int
  orientacion : Orientacion
  vacuscopioActivado : Bool
  posicionAnterior : Coord
  historial : List HistRegistro
deriving DecidableEq, Repr

/-- The environment `EntornoOperacion` (environment.py lines 31-66): the
cubic grid is a function on coordinates (the embedding of the `N`-sided
numpy array; only in-bounds cells are ever read through
`obtener_tipo_celda`), plus the two registries of active entities. -/
structure EntornoOperacion where
  N : Int
  Pfree : ℚ
  Psoft : ℚ
  grid : Int → Int → Int → Zona
  robots : List Robot
  monstruos : List Monstruo

/-- Pointwise update of the grid, the embedding of
`grid[x, y, z] = v`. -/
def setCelda (g : Int → Int → Int → Zona) (x y z : Int) (v : Zona) :
    Int → Int → Int → Zona :=
  fun a b c => if a = x ∧ b = y ∧ c = z then v else g a b c

/-- `obtener_tipo_celda` (environment.py lines 105-122): the stored value in
bounds, `ZONA_VACIA` outside. -/
def EntornoOperacion.obtenerTipoCelda (e : EntornoOperacion) (x y z : Int) : Zona :=
  if 0 ≤ x ∧ x < e.N ∧ 0 ≤ y ∧ y < e.N ∧ 0 ≤ z ∧ z < e.N then e.grid x y z
  else Zona.vacia

/-- `registrar_robot` (environment.py lines 127-151): reject on a
`ZONA_VACIA` cell, reject when another robot occupies the cell, otherwise
append.  The boolean is the Python return value. -/
def EntornoOperacion.registrarRobot (e : EntornoOperacion) (robot : Robot) :
    EntornoOperacion × Bool :=
  if e.obtenerTipoCelda robot.x robot.y robot.z = Zona.vacia then (e, false)
  else if e.robots.any fun r => (r.x, r.y, r.z) = (robot.x, robot.y, robot.z) then (e, false)
  else ({ e with robots := e.robots ++ [robot] }, true)

/-- `registrar_monstruo` (environment.py lines 153-177). -/
def EntornoOperacion.registrarMonstruo (e : EntornoOperacion) (monstruo : Monstruo) :
    EntornoOperacion × Bool :=
  if e.obtenerTipoCelda monstruo.x monstruo.y monstruo.z = Zona.vacia then (e, false)
  else if e.monstruos.any fun m => (m.x, m.y, m.z) = (monstruo.x, monstruo.y, monstruo.z) then
    (e, false)
  else ({ e with monstruos := e.monstruos ++ [monstruo] }, true)

/-- `eliminar_robot` (environment.py lines 182-189). -/
def EntornoOperacion.eliminarRobot (e : EntornoOperacion) (robotId : Int) : EntornoOperacion :=
  { e with robots := e.robots.filter fun r => r.id ≠ robotId }

/-- `eliminar_monstruo` (environment.py lines 191-198). -/
def EntornoOperacion.eliminarMonstruo (e : EntornoOperacion) (monstruoId : Int) :
    EntornoOperacion :=
  { e with monstruos := e.monstruos.filter fun m => m.id ≠ monstruoId }

/-! ### Grid generation and the global random generator

`EntornoOperacion.__init__` seeds Python's global generator when `seed` is
not `None`, then `_generar_entorno_aleatorio` consumes one uniform draw per
cell in `x, y, z` loop order and finally forces the centre cell
`grid[N//2, N//2, N//2]` to `ZONA_LIBRE` (environment.py lines 56-92).
The generator is modelled as a stream of rationals with a position;
`random.seed(s)` replaces the whole state by `mt s` for an arbitrary
pseudo-random family `mt`. -/

/-- The state of Python's global `random` generator: a stream of draws and
a read position. -/
structure RngState where
  stream : Nat → ℚ
  pos : Nat

/-- `random.seed(s)`: the state afterwards depends only on `s` (and the
generator family `mt`), not on the previous state. -/
def rngSeed (mt : Int → Nat → ℚ) (s : Int) : RngState :=
  { stream := mt s, pos := 0 }

/-- Draw index of cell `(x, y, z)` in the `x, y, z` loop of
`_generar_entorno_aleatorio`. -/
def idxCelda (n : Nat) (x y z : Nat) : Nat :=
  (x * n + y) * n + z

/-- `_generar_entorno_aleatorio` (environment.py lines 71-92) as a grid
function: each cell is `ZONA_VACIA` when its draw is `< Psoft`, and the
centre cell `(N//2, N//2, N//2)` is forced `ZONA_LIBRE` afterwards.  The
outer shell is NOT treated specially by this code.  Out-of-bounds
arguments are never read (see `obtenerTipoCelda`). -/
def generarEntornoAleatorio (n : Nat) (psoft : ℚ) (draws : Nat → ℚ) :
    Int → Int → Int → Zona :=
  fun x y z =>
    let centro : Int := (n : Int) / 2
    if x = centro ∧ y = centro ∧ z = centro then Zona.libre
    else if draws (idxCelda n x.toNat y.toNat z.toNat) < psoft then Zona.vacia
    else Zona.libre

/-- `EntornoOperacion.__init__` (environment.py lines 31-66): seed the
global generator when a seed is given, generate the grid, start with empty
registries.  Returns the environment together with the generator state
after the `N³` draws. -/
def entornoInit (mt : Int → Nat → ℚ) (g : RngState) (n : Nat) (pfree psoft : ℚ)
    (seed : Option Int) : EntornoOperacion × RngState :=
  let g1 := match seed with
    | some s => rngSeed mt s
    | none => g
  let grid := generarEntornoAleatorio n psoft fun i => g1.stream (g1.pos + i)
  ({ N := (n : Int)
     Pfree := pfree
     Psoft := psoft
     grid := grid
     robots := []
     monstruos := [] },
   { stream := g1.stream, pos := g1.pos + n * n * n })

/-! ### Rational robot: sensors -/

/-- `al_frente` / `al_lado` — the relative position classes the
`monstroscopio` reports. -/
inductive PosRel
  | alFrente
  | alLado
deriving DecidableEq, Repr

/-- The `monstroscopio` reading `(detectado, pos_relativa,
orientacion_monstruo)` (agent_robot.py `_detectar_monstruos`,
lines 152-190). -/
structure MonstroRead where
  detectado : Bool
  posRel : Option PosRel
  dirLabel : Option Orientacion
deriving DecidableEq, Repr

/-- The loop body of `_detectar_monstruos` (agent_robot.py lines 181-190):
walk the orientations in dict order, skip the one exactly behind, and
report the first adjacent cell holding a monster, classified `al_frente`
when it is the forward cell, else `al_lado`. -/
def detectarMonstruosLista (pos : Coord) (monstruos : List Monstruo) (d : Coord) :
    List Orientacion → MonstroRead
  | [] => { detectado := false, posRel := none, dirLabel := none }
  | o :: resto =>
    let v := orientVect o
    if v = (-d.1, -d.2.1, -d.2.2) then detectarMonstruosLista pos monstruos d resto
    else if monstruos.any fun m =>
        (m.x, m.y, m.z) = (pos.1 + v.1, pos.2.1 + v.2.1, pos.2.2 + v.2.2) then
      if v = d then { detectado := true, posRel := some PosRel.alFrente, dirLabel := some o }
      else { detectado := true, posRel := some PosRel.alLado, dirLabel := some o }
    else detectarMonstruosLista pos monstruos d resto

/-- `_detectar_monstruos` over the five visible sides. -/
def Robot.detectarMonstruos (r : Robot) (monstruos : List Monstruo) (d : Coord) : MonstroRead :=
  detectarMonstruosLista (r.x, r.y, r.z) monstruos d ordenOrientaciones

/-- The percept dict `percibir` returns (agent_robot.py lines 119-150). -/
structure Percepcion where
  giroscopio : Orientacion
  energometro : Bool
  roboscanner : Bool
  vacuscopio : Bool
  monstroscopio : MonstroRead
  posicionAnterior : Coord
deriving DecidableEq, Repr

/-- `percibir` (agent_robot.py lines 119-150): every sensor is a read of
current state; nothing is assigned. -/
def Robot.percibir (r : Robot) (robots : List Robot) (monstruos : List Monstruo) : Percepcion :=
  let d := orientVect r.orientacion
  let frente : Coord := (r.x + d.1, r.y + d.2.1, r.z + d.2.2)
  { giroscopio := r.orientacion
    energometro := monstruos.any fun m => (m.x, m.y, m.z) = (r.x, r.y, r.z)
    roboscanner := robots.any fun s => (s.x, s.y, s.z) == frente && s.id != r.id
    vacuscopio := r.vacuscopioActivado
    monstroscopio := r.detectarMonstruos monstruos d
    posicionAnterior := r.posicionAnterior }

/-- `percibir` with the whole world state passed through, mirroring the
method statement by statement: the source lines 119-190 contain reads
only, so the robot, the environment and both sibling lists come back
untouched.  Mutating phases (decide, execute) return updated structures
instead. -/
def Robot.percibirConEstado (r : Robot) (e : EntornoOperacion) (robots : List Robot)
    (monstruos : List Monstruo) :
    Percepcion × Robot × EntornoOperacion × List Robot × List Monstruo :=
  let d := orientVect r.orientacion
  let frente : Coord := (r.x + d.1, r.y + d.2.1, r.z + d.2.2)
  ({ giroscopio := r.orientacion
     energometro := monstruos.any fun m => (m.x, m.y, m.z) = (r.x, r.y, r.z)
     roboscanner := robots.any fun s => (s.x, s.y, s.z) == frente && s.id != r.id
     vacuscopio := r.vacuscopioActivado
     monstroscopio := r.detectarMonstruos monstruos d
     posicionAnterior := r.posicionAnterior },
   r, e, robots, monstruos)

/-! ### Rational robot: decision -/

/-- One entry of `tabla_mapeo`: effector, optional explicit parameter,
reason tag. -/
structure Regla where
  accion : Accion
  param : Option Param
  razon : Razon
deriving DecidableEq, Repr

/-- The decision key `(energómetro, roboscanner, (detectado,
pos_relativa), vacuscopio)` (agent_robot.py line 18 and lines 218-223). -/
abbrev PercepcionClave := Bool × Bool × (Bool × Option PosRel) × Bool

/-- `tabla_mapeo` (agent_robot.py lines 78-112): the 24 keys of the
Python dict, in order; `dict.get` yields `none` on any other key. -/
def tablaMapeo : PercepcionClave → Option Regla
  | (true, true, (true, some PosRel.alFrente), true) =>
    some { accion := Accion.VACUUMATOR, param := none, razon := Razon.monstruo_en_celda }
  | (true, true, (true, some PosRel.alLado), true) =>
    some { accion := Accion.VACUUMATOR, param := none, razon := Razon.monstruo_en_celda }
  | (true, true, (true, some PosRel.alFrente), false) =>
    some { accion := Accion.VACUUMATOR, param := none, razon := Razon.monstruo_en_celda }
  | (true, true, (true, some PosRel.alLado), false) =>
    some { accion := Accion.VACUUMATOR, param := none, razon := Razon.monstruo_en_celda }
  | (true, true, (false, none), true) =>
    some { accion := Accion.VACUUMATOR, param := none, razon := Razon.monstruo_en_celda }
  | (true, true, (false, none), false) =>
    some { accion := Accion.VACUUMATOR, param := none, razon := Razon.monstruo_en_celda }
  | (true, false, (true, some PosRel.alFrente), true) =>
    some { accion := Accion.VACUUMATOR, param := none, razon := Razon.monstruo_en_celda }
  | (true, false, (true, some PosRel.alLado), true) =>
    some { accion := Accion.VACUUMATOR, param := none, razon := Razon.monstruo_en_celda }
  | (true, false, (true, some PosRel.alFrente), false) =>
    some { accion := Accion.VACUUMATOR, param := none, razon := Razon.monstruo_en_celda }
  | (true, false, (true, some PosRel.alLado), false) =>
    some { accion := Accion.VACUUMATOR, param := none, razon := Razon.monstruo_en_celda }
  | (true, false, (false, none), true) =>
    some { accion := Accion.VACUUMATOR, param := none, razon := Razon.monstruo_en_celda }
  | (true, false, (false, none), false) =>
    some { accion := Accion.VACUUMATOR, param := none, razon := Razon.monstruo_en_celda }
  | (false, true, (true, some PosRel.alFrente), true) =>
    some { accion := Accion.REORIENTADOR, param := some Param.mas90, razon := Razon.obstaculo_detectado }
  | (false, true, (true, some PosRel.alLado), true) =>
    some { accion := Accion.REORIENTADOR, param := some Param.mas90, razon := Razon.obstaculo_detectado }
  | (false, true, (false, none), true) =>
    some { accion := Accion.REORIENTADOR, param := some Param.mas90, razon := Razon.obstaculo_detectado }
  | (false, false, (true, some PosRel.alFrente), true) =>
    some { accion := Accion.REORIENTADOR, param := some Param.mas90, razon := Razon.obstaculo_detectado }
  | (false, false, (true, some PosRel.alLado), true) =>
    some { accion := Accion.REORIENTADOR, param := some Param.mas90, razon := Razon.obstaculo_detectado }
  | (false, false, (false, none), true) =>
    some { accion := Accion.REORIENTADOR, param := some Param.mas90, razon := Razon.obstaculo_detectado }
  | (false, true, (true, some PosRel.alFrente), false) =>
    some { accion := Accion.REORIENTADOR, param := some Param.mas90, razon := Razon.robot_al_frente }
  | (false, true, (true, some PosRel.alLado), false) =>
    some { accion := Accion.REORIENTADOR, param := some Param.mas90, razon := Razon.robot_al_frente }
  | (false, true, (false, none), false) =>
    some { accion := Accion.REORIENTADOR, param := some Param.mas90, razon := Razon.robot_al_frente }
  | (false, false, (true, some PosRel.alFrente), false) =>
    some { accion := Accion.PROPULSOR, param := none, razon := Razon.monstruo_en_frente }
  | (false, false, (true, some PosRel.alLado), false) =>
    some { accion := Accion.REORIENTADOR, param := none, razon := Razon.alinear_con_monstruo }
  | (false, false, (false, none), false) =>
    some { accion := Accion.PROPULSOR, param := none, razon := Razon.accion_por_defecto }
  | _ => none

/-- The decision `decidir_accion` returns (agent_robot.py lines 195-244). -/
structure Decision where
  accion : Accion
  param : Option Param
  razon : Razon
deriving DecidableEq, Repr

/-- `decidir_accion` (agent_robot.py lines 195-244): build the key, reset
the vacuscopio for the next tick, look the rule up; a rule without an
explicit `param` falls back to the monstroscopio's direction label, and a
missing key falls back to `PROPULSOR` / `accion_por_defecto`. -/
def Robot.decidirAccion (r : Robot) (p : Percepcion) : Decision × Robot :=
  let clave : PercepcionClave :=
    (p.energometro, p.roboscanner, (p.monstroscopio.detectado, p.monstroscopio.posRel),
     p.vacuscopio)
  let r2 := { r with vacuscopioActivado := false }
  match tablaMapeo clave with
  | some regla =>
    ({ accion := regla.accion
       param := match regla.param with
         | some q => some q
         | none => p.monstroscopio.dirLabel.map Param.dir
       razon := regla.razon }, r2)
  | none =>
    ({ accion := Accion.PROPULSOR
       param := p.monstroscopio.dirLabel.map Param.dir
       razon := Razon.accion_por_defecto }, r2)

/-! ### Rational robot: effectors -/

/-- The `resultado` payload of each effector's returned dict. -/
inductive Detalle
  | nuevaPosicion (pos : Coord)
  | colision (celdaBloqueada : Coord)
  | nuevaOrientacion (o : Orientacion)
  | vacuum (monstruosEliminados : List Int) (celda : Coord)
deriving DecidableEq, Repr

/-- An effector's returned dict `{accion, exito, resultado, razon}`. -/
structure Resultado where
  accion : Accion
  exito : Bool
  razon : Razon
  detalle : Detalle
deriving DecidableEq, Repr

/-- The forward cell `(x+dx, y+dy, z+dz)` of the robot's orientation. -/
def Robot.celdaFrontal (r : Robot) : Coord :=
  let d := orientVect r.orientacion
  (r.x + d.1, r.y + d.2.1, r.z + d.2.2)

/-- `_propulsor` (agent_robot.py lines 280-320): a `ZONA_LIBRE` forward
cell moves the robot there (saving the previous position and clearing the
vacuscopio); anything else leaves the position alone, sets the vacuscopio
and reports a collision.  The method never assigns to the environment,
which therefore passes through unchanged. -/
def Robot.propulsor (r : Robot) (e : EntornoOperacion) :
    Robot × EntornoOperacion × Resultado :=
  let n := r.celdaFrontal
  if e.obtenerTipoCelda n.1 n.2.1 n.2.2 = Zona.libre then
    ({ r with
        posicionAnterior := (r.x, r.y, r.z)
        x := n.1
        y := n.2.1
        z := n.2.2
        vacuscopioActivado := false },
     e,
     { accion := Accion.PROPULSOR
       exito := true
       razon := Razon.avance_exitoso
       detalle := Detalle.nuevaPosicion n })
  else
    ({ r with vacuscopioActivado := true },
     e,
     { accion := Accion.PROPULSOR
       exito := false
       razon := Razon.colision_con_pared
       detalle := Detalle.colision n })

/-- The cyclic-rotation arm of `_reorientador` (agent_robot.py lines
346-351): an orientation outside `_ORIENTACIONES_CICLICAS` is first reset
to `+X`; then the index moves by `+1` for `'+90'` and by `-1` otherwise.
Python's `(i - 1) % 4` on ints equals `(i + 3) % 4` for `0 ≤ i < 4`. -/
def rotacionCiclica (ori : Orientacion) (sentido : Param) : Orientacion :=
  let ori0 := if ori ∈ cicloXY then ori else Orientacion.pX
  let i := cicloXY.indexOf ori0
  cicloXY.getD ((if sentido = Param.mas90 then i + 1 else i + 3) % 4) Orientacion.pX

/-- `_reorientador` (agent_robot.py lines 322-358): a direction label
aligns the robot directly; `'+90'` / `'-90'` rotate within the XY cycle.
Both branches succeed. -/
def Robot.reorientador (r : Robot) (sentido : Param) : Robot × Resultado :=
  match sentido with
  | Param.dir o =>
    ({ r with orientacion := o },
     { accion := Accion.REORIENTADOR
       exito := true
       razon := Razon.alineacion_directa_con_monstruo
       detalle := Detalle.nuevaOrientacion o })
  | s =>
    let nueva := rotacionCiclica r.orientacion s
    ({ r with orientacion := nueva },
     { accion := Accion.REORIENTADOR
       exito := true
       razon := Razon.rotacion_lateral
       detalle := Detalle.nuevaOrientacion nueva })

/-- `_vacuumator` (agent_robot.py lines 360-393): remove every co-located
monster through `eliminar_monstruo`, set the robot's own cell to
`ZONA_VACIA`, report success iff at least one monster was removed.  The
method does NOT touch the robot registry. -/
def Robot.vacuumator (r : Robot) (e : EntornoOperacion) :
    Robot × EntornoOperacion × Resultado :=
  let eliminados := e.monstruos.filter fun m => (m.x, m.y, m.z) = (r.x, r.y, r.z)
  let e1 := eliminados.foldl (fun acc m => acc.eliminarMonstruo m.id) e
  let e2 := { e1 with grid := setCelda e1.grid r.x r.y r.z Zona.vacia }
  (r, e2,
   { accion := Accion.VACUUMATOR
     exito := !eliminados.isEmpty
     razon := if eliminados.isEmpty then Razon.sin_objetivos else Razon.monstruo_destruido
     detalle := Detalle.vacuum (eliminados.map Monstruo.id) (r.x, r.y, r.z) })

/-- `ejecutar_accion` (agent_robot.py lines 246-275); `param or "+90"`
turns a missing parameter into `'+90'`. -/
def Robot.ejecutarAccion (r : Robot) (accion : Accion) (param : Option Param)
    (e : EntornoOperacion) : Robot × EntornoOperacion × Resultado :=
  match accion with
  | Accion.PROPULSOR => r.propulsor e
  | Accion.REORIENTADOR =>
    let rr := r.reorientador (param.getD Param.mas90)
    (rr.1, e, rr.2)
  | Accion.VACUUMATOR => r.vacuumator e

/-- `actualizar_memoria` (agent_robot.py lines 433-459).  Python stores
`'M': bool(percepcion.get('monstroscopio'))`; the monstroscopio value is a
3-tuple, and `bool` of a 3-tuple is always `True`. -/
def Robot.actualizarMemoria (r : Robot) (t : Nat) (p : Percepcion) (a : Accion) : Robot :=
  { r with historial := r.historial ++
      [{ t := t
         p := { ori := p.giroscopio
                E := p.energometro
                R := p.roboscanner
                M := true
                V := p.vacuscopio
                posPrev := p.posicionAnterior }
         a := a }] }

/-- The per-tick event `percibir_decidir_actuar` returns
(agent_robot.py lines 398-428). -/
structure Evento where
  accion : Accion
  exito : Bool
  razon : Razon
deriving DecidableEq, Repr

/-- `percibir_decidir_actuar` (agent_robot.py lines 398-428): perceive,
decide, record to memory, execute. -/
def Robot.percibirDecidirActuar (r : Robot) (t : Nat) (e : EntornoOperacion)
    (robots : List Robot) (monstruos : List Monstruo) :
    Robot × EntornoOperacion × Evento :=
  let p := r.percibir robots monstruos
  let dr := r.decidirAccion p
  let r2 := dr.2.actualizarMemoria t p dr.1.accion
  let out := r2.ejecutarAccion dr.1.accion dr.1.param e
  (out.1, out.2.1, { accion := dr.1.accion, exito := out.2.2.exito, razon := out.2.2.razon })

/-! ### Reflex monster (agent_monster.py) -/

/-- The monster's action names: `"mover"` / `"inactivo"`. -/
inductive AccionMonstruo
  | mover
  | inactivo
deriving DecidableEq, Repr

/-- The monster's `razon` tags (agent_monster.py lines 155-177). -/
inductive RazonMonstruo
  | no_en_ciclo
  | no_supera_probabilidad
  | sin_movimientos_validos
  | movimiento_aleatorio
deriving DecidableEq, Repr

/-- `_es_movimiento_valido` (agent_monster.py lines 113-129): in bounds and
not a `ZONA_VACIA` (reads `entorno.grid` directly, after the bounds check). -/
def esMovimientoValido (e : EntornoOperacion) (x y z : Int) : Bool :=
  if 0 ≤ x ∧ x < e.N ∧ 0 ≤ y ∧ y < e.N ∧ 0 ≤ z ∧ z < e.N then e.grid x y z != Zona.vacia
  else false

/-- `_obtener_movimientos_validos` (agent_monster.py lines 92-111): the
direction vectors, in `_DIRECCIONES` order, whose target is valid. -/
def Monstruo.obtenerMovimientosValidos (m : Monstruo) (e : EntornoOperacion) : List Coord :=
  (ordenOrientaciones.map orientVect).filter fun d =>
    esMovimientoValido e (m.x + d.1) (m.y + d.2.1) (m.z + d.2.2)

/-- The nested `'percepcion'` dict of `percibir` (agent_monster.py
lines 79-83). -/
structure PercepcionMonstruo where
  movimientosValidos : List Coord
  puedeMoverse : Bool
deriving DecidableEq, Repr

/-- The full dict `percibir` returns (agent_monster.py lines 85-90). -/
structure LecturaMonstruo where
  id : Int
  posicion : Coord
  percepcion : PercepcionMonstruo
deriving DecidableEq, Repr

/-- `percibir` (agent_monster.py lines 60-90). -/
def Monstruo.percibir (m : Monstruo) (e : EntornoOperacion) : LecturaMonstruo :=
  let movs := m.obtenerMovimientosValidos e
  { id := m.id
    posicion := (m.x, m.y, m.z)
    percepcion := { movimientosValidos := movs, puedeMoverse := !movs.isEmpty } }

/-- The decision dict of `decidir_accion` (agent_monster.py lines 134-177). -/
structure DecisionMonstruo where
  accion : AccionMonstruo
  param : Option Coord
  razon : RazonMonstruo
deriving DecidableEq, Repr

/-- `decidir_accion` (agent_monster.py lines 134-177): the schedule gate
`ciclo_actual % K != 0` is tested BEFORE the probability draw; then the
probability gate `random.random() > p_movimiento`; then the
no-valid-moves gate; otherwise a uniformly chosen valid move (modelled by
an arbitrary index `eleccion` into the list) and the action counter is
incremented.  `draw` and `eleccion` stand for the two random values
consumed on their branches. -/
def Monstruo.decidirAccion (m : Monstruo) (lectura : LecturaMonstruo) (cicloActual K : Nat)
    (draw : ℚ) (eleccion : Nat) : DecisionMonstruo × Monstruo :=
  if cicloActual % K ≠ 0 then
    ({ accion := AccionMonstruo.inactivo, param := none, razon := RazonMonstruo.no_en_ciclo }, m)
  else if m.pMovimiento < draw then
    ({ accion := AccionMonstruo.inactivo
       param := none
       razon := RazonMonstruo.no_supera_probabilidad }, m)
  else if !lectura.percepcion.puedeMoverse then
    ({ accion := AccionMonstruo.inactivo
       param := none
       razon := RazonMonstruo.sin_movimientos_validos }, m)
  else
    let movs := lectura.percepcion.movimientosValidos
    let d := movs.getD (eleccion % movs.length) (0, 0, 0)
    ({ accion := AccionMonstruo.mover
       param := some (lectura.posicion.1 + d.1, lectura.posicion.2.1 + d.2.1,
         lectura.posicion.2.2 + d.2.2)
       razon := RazonMonstruo.movimiento_aleatorio },
     { m with accionesRealizadas := m.accionesRealizadas + 1 })

/-- `ejecutar_accion` (agent_monster.py lines 179-189): only a `"mover"`
action with a (truthy) position updates the coordinates. -/
def Monstruo.ejecutarAccion (m : Monstruo) (accion : AccionMonstruo)
    (nuevaPosicion : Option Coord) : Monstruo :=
  match accion, nuevaPosicion with
  | AccionMonstruo.mover, some p => { m with x := p.1, y := p.2.1, z := p.2.2 }
  | _, _ => m

/-- The event dict of the monster's life cycle (agent_monster.py
lines 221-232). -/
structure EventoMonstruo where
  agentId : Int
  tick : Nat
  accion : AccionMonstruo
  exito : Bool
  razon : RazonMonstruo
  nuevaPos : Coord
deriving DecidableEq, Repr

/-- `percibir_decidir_actuar` (agent_monster.py lines 194-232). -/
def Monstruo.percibirDecidirActuar (m : Monstruo) (t : Nat) (e : EntornoOperacion) (K : Nat)
    (draw : ℚ) (eleccion : Nat) : Monstruo × EventoMonstruo :=
  let lectura := m.percibir e
  let dm := m.decidirAccion lectura t K draw eleccion
  let m2 := dm.2.ejecutarAccion dm.1.accion dm.1.param
  let exito := dm.1.accion == AccionMonstruo.mover && dm.1.param.isSome
  (m2,
   { agentId := m.id
     tick := t
     accion := dm.1.accion
     exito := exito
     razon := dm.1.razon
     nuevaPos := (m2.x, m2.y, m2.z) })

/-! ### The older environment variant `Entorno3D` (environmet.py)

Its `registrar_robot` (lines 87-101) checks ONLY the cell type: there is
no same-kind occupancy check. -/

/-- `Entorno3D` state (environmet.py lines 24-46). -/
structure Entorno3D where
  N : Int
  grid : Int → Int → Int → Zona
  robots : List Robot
  monstruos : List Monstruo

/-- `get_cell_type` (environmet.py lines 68-82). -/
def Entorno3D.getCellType (e : Entorno3D) (x y z : Int) : Zona :=
  if 0 ≤ x ∧ x < e.N ∧ 0 ≤ y ∧ y < e.N ∧ 0 ≤ z ∧ z < e.N then e.grid x y z
  else Zona.vacia

/-- `Entorno3D.registrar_robot` (environmet.py lines 87-101): reject only
when the cell is `ZONA_VACIA`; otherwise append, with no occupancy
check. -/
def Entorno3D.registrarRobot (e : Entorno3D) (robot : Robot) : Entorno3D × Bool :=
  if e.getCellType robot.x robot.y robot.z = Zona.vacia then (e, false)
  else ({ e with robots := e.robots ++ [robot] }, true)

/-! ### jhunior variant: decision chain and rotation tables
(src/jhunior/agent_robot.py) -/

/-- The jhunior percept dict (jhunior/agent_robot.py lines 56-103). -/
structure JPercepcion where
  giroscopio : Orientacion
  monstroscopio : Bool
  vacuscopio : Bool
  energometro : Bool
  roboscanner : Bool
  frontCell : Coord
deriving DecidableEq, Repr

/-- A jhunior decision: effector, parameter, and the priority rule index
added to `rules_used`. -/
structure JDecision where
  accion : Accion
  param : Option Param
  regla : Nat
deriving DecidableEq, Repr

/-- The jhunior `mapping_table`, a `defaultdict(lambda: 'PROPULSOR')` with
three initialized keys (jhunior/agent_robot.py lines 45-50). -/
def jMappingTable (k : Bool × Bool × Bool × Bool) : Accion :=
  if k = (true, false, false, false) then Accion.VACUUMATOR
  else if k = (false, true, false, false) then Accion.REORIENTADOR
  else if k = (false, false, true, false) then Accion.PROPULSOR
  else Accion.PROPULSOR

/-- `decide_action` (jhunior/agent_robot.py lines 108-146): the strict
priority chain P0 energometro, P1 known wall or vacuscopio, P2
roboscanner, P3 monstroscopio, P4 mapping table. -/
def jDecideAction (knownWalls : List Coord) (p : JPercepcion) : JDecision :=
  if p.energometro then { accion := Accion.VACUUMATOR, param := none, regla := 0 }
  else if p.frontCell ∈ knownWalls ∨ p.vacuscopio then
    { accion := Accion.REORIENTADOR, param := some Param.mas90, regla := 1 }
  else if p.roboscanner then { accion := Accion.REORIENTADOR, param := some Param.mas90, regla := 2 }
  else if p.monstroscopio then { accion := Accion.PROPULSOR, param := none, regla := 3 }
  else
    { accion := jMappingTable (p.energometro, p.roboscanner, p.monstroscopio, p.vacuscopio)
      param := none
      regla := 4 }

/-- `_ROTATE_RIGHT` (jhunior/agent_robot.py lines 15-18): the XY cycle,
with `'+Z'` and `'-Z'` mapped to themselves. -/
def jRotateRight : Orientacion → Orientacion
  | Orientacion.pX => Orientacion.pY
  | Orientacion.pY => Orientacion.mX
  | Orientacion.mX => Orientacion.mY
  | Orientacion.mY => Orientacion.pX
  | Orientacion.pZ => Orientacion.pZ
  | Orientacion.mZ => Orientacion.mZ

/-- `_ROTATE_LEFT = {v: k for k, v in _ROTATE_RIGHT.items()}`
(jhunior/agent_robot.py line 19). -/
def jRotateLeft : Orientacion → Orientacion
  | Orientacion.pY => Orientacion.pX
  | Orientacion.mX => Orientacion.pY
  | Orientacion.mY => Orientacion.mX
  | Orientacion.pX => Orientacion.mY
  | Orientacion.pZ => Orientacion.pZ
  | Orientacion.mZ => Orientacion.mZ

/-- `_reorientador` (jhunior/agent_robot.py lines 165-171): `'+90'` turns
right, anything else turns left. -/
def jReorientador (ori : Orientacion) (direction : Param) : Orientacion :=
  if direction = Param.mas90 then jRotateRight ori else jRotateLeft ori

/-! ### Loop detection (modelled from the spec)

Modelled from the spec: the repository's loop-detection code is not under
`src/` — only the metric counter `bucles_detectados`
(src/agentes/simulation.py lines 47, 173, 186, 199) refers to it.  Spec
section 4.4: scan trailing history of `(percept-summary, action)` records;
for candidate pattern lengths from a minimum up to
`history_length / minimum_repetitions`, compare the most recent window
against the immediately preceding windows of the same length, counting
consecutive exact repeats; report `(length, repetitions)` when the count
reaches the configured threshold (default 2). -/

/-- A `(percept-summary, action)` record compared by loop detection. -/
abbrev RegistroPA := EstadoPerceptual × Accion

/-- Modelled from the spec: configuration of loop detection —
`minimum_pattern_length`, `minimum_repetitions` and the report
threshold. -/
structure ConfigBucles where
  longitudMinima : Nat
  repeticionesMinimas : Nat
  umbral : Nat
deriving DecidableEq, Repr

/-- Modelled from the spec: count how many consecutive leading chunks of
`rev` (the reversed history; the head is the most recent record) equal the
window `w`.  `fuel` bounds the recursion; `rev.length` is always enough
since each step consumes `w.length ≥ 1` records. -/
def chunkReps (w : List RegistroPA) : Nat → List RegistroPA → Nat
  | 0, _ => 0
  | fuel + 1, rev =>
    if w ≠ [] ∧ rev.take w.length = w then chunkReps w fuel (rev.drop w.length) + 1
    else 0

/-- Modelled from the spec: try candidate pattern lengths in order and
report the first whose repeat count reaches the threshold. -/
def buscarBucle (rev : List RegistroPA) (umbral : Nat) : List Nat → Option (Nat × Nat)
  | [] => none
  | l :: resto =>
    let reps := chunkReps (rev.take l) rev.length rev
    if umbral ≤ reps then some (l, reps) else buscarBucle rev umbral resto

/-- Modelled from the spec: loop detection over the trailing history —
candidate pattern lengths run from `longitudMinima` up to
`history_length / repeticionesMinimas`. -/
def detectarBucle (hist : List RegistroPA) (cfg : ConfigBucles) : Option (Nat × Nat) :=
  let rev := hist.reverse
  let maxLen := hist.length / cfg.repeticionesMinimas
  buscarBucle rev cfg.umbral (List.range' cfg.longitudMinima (maxLen + 1 - cfg.longitudMinima))

/-! ### A registration call sequence (driver-side composition)

The callers (simulation.py `_inicializar_agentes`) issue a sequence of
`registrar_robot` / `registrar_monstruo` calls; the environment's answers
are the accepted/rejected booleans, in order. -/

/-- Apply a sequence of registration calls, collecting each call's
boolean result. -/
def registrarSecuencia (e : EntornoOperacion) :
    List (Robot ⊕ Monstruo) → EntornoOperacion × List Bool
  | [] => (e, [])
  | Sum.inl r :: resto =>
    let p := e.registrarRobot r
    let q := registrarSecuencia p.1 resto
    (q.1, p.2 :: q.2)
  | Sum.inr m :: resto =>
    let p := e.registrarMonstruo m
    let q := registrarSecuencia p.1 resto
    (q.1, p.2 :: q.2)

/-! ### Concrete fixtures used by witnesses and counterexamples -/

/-- A monster standing at `(1, 1, 1)`. -/
def monstruoW : Monstruo :=
  { id := 1, x := 1, y := 1, z := 1, pMovimiento := 7 / 10, accionesRealizadas := 0 }

/-- A robot standing at `(1, 1, 1)` facing `+X`. -/
def robotW : Robot :=
  { id := 1, x := 1, y := 1, z := 1, orientacion := Orientacion.pX
    vacuscopioActivado := false, posicionAnterior := (1, 1, 1), historial := [] }

/-- A second robot, also at `(1, 1, 1)`. -/
def robotW2 : Robot :=
  { id := 2, x := 1, y := 1, z := 1, orientacion := Orientacion.pY
    vacuscopioActivado := false, posicionAnterior := (1, 1, 1), historial := [] }

/-- A 3³ environment whose grid is entirely `ZONA_LIBRE`, holding `robotW`
and `monstruoW` at the same cell. -/
def entornoW : EntornoOperacion :=
  { N := 3, Pfree := 8 / 10, Psoft := 2 / 10, grid := fun _ _ _ => Zona.libre
    robots := [robotW], monstruos := [monstruoW] }

/-- A 3³ environment whose grid is entirely `ZONA_LIBRE`, with a wall at
the cell `(2, 1, 1)` directly ahead of `robotW`. -/
def entornoParedW : EntornoOperacion :=
  { N := 3, Pfree := 8 / 10, Psoft := 2 / 10
    grid := fun x y z => if x = 2 ∧ y = 1 ∧ z = 1 then Zona.vacia else Zona.libre
    robots := [robotW], monstruos := [] }

/-- An empty all-free `Entorno3D` of side 3. -/
def entorno3dW : Entorno3D :=
  { N := 3, grid := fun _ _ _ => Zona.libre, robots := [], monstruos := [] }

/-- A history record used by the loop-detection witness. -/
def registroW : RegistroPA :=
  ({ ori := Orientacion.pX, E := false, R := false, M := true, V := false
     posPrev := (0, 0, 0) }, Accion.PROPULSOR)

/-! ## Theorems -/

/-- Claim C10: the Rational Agent's perception phase is a pure read — for
every agent state, environment and sibling lists, `percibir` (including
the `_detectar_monstruos` neighbourhood scan) leaves the agent (position,
orientation, memory), the environment (grid and registries) and the
sibling lists unchanged, and only computes the percept; mutation happens
in the decision and effector phases, whose embeddings return updated
structures. -/
theorem percibir_lectura_pura (r : Robot) (e : EntornoOperacion) (robots : List Robot)
    (monstruos : List Monstruo) :
    (r.percibirConEstado e robots monstruos).2 = (r, e, robots, monstruos) ∧
    (r.percibirConEstado e robots monstruos).1 = r.percibir robots monstruos :=
  ⟨rfl, rfl⟩

/-- Claim C8: constructing two environments from identical
`(N, Pfree, Psoft, seed)` with a non-`None` seed yields identical grids
and, under any identical subsequent registration sequence, identical
accepted/rejected answers — whatever the prior states `g` and g' of the
global random generator were, because `random.seed` overwrites them. -/
theorem determinismo_generacion_registro (mt : Int → Nat → ℚ) (g g' : RngState) (n : Nat)
    (pfree psoft : ℚ) (s : Int) (llamadas : List (Robot ⊕ Monstruo)) :
    (entornoInit mt g n pfree psoft (some s)).1.grid =
      (entornoInit mt g' n pfree psoft (some s)).1.grid ∧
    (registrarSecuencia (entornoInit mt g n pfree psoft (some s)).1 llamadas).2 =
      (registrarSecuencia (entornoInit mt g' n pfree psoft (some s)).1 llamadas).2 :=
  ⟨rfl, rfl⟩

/-- Claim C2 (the divergence): `_generar_entorno_aleatorio` never forces
the outer shell to `ZONA_VACIA` — for `N = 2` the centre forcing makes the
shell cell `(1, 1, 1)` (all coordinates equal `N − 1`) come out
`ZONA_LIBRE` for EVERY seed and draw sequence, contradicting the
invariant and the generator's own docstring. -/
theorem generacion_cascara_no_bloqueada (mt : Int → Nat → ℚ) (g : RngState) (pfree psoft : ℚ)
    (s : Int) :
    (entornoInit mt g 2 pfree psoft (some s)).1.obtenerTipoCelda 1 1 1 = Zona.libre ∧
    (entornoInit mt g 2 pfree psoft (some s)).1.N = 2 := by
  refine ⟨?_, rfl⟩
  show (if 0 ≤ (1 : Int) ∧ (1 : Int) < 2 ∧ 0 ≤ (1 : Int) ∧ (1 : Int) < 2 ∧ 0 ≤ (1 : Int) ∧
      (1 : Int) < 2 then generarEntornoAleatorio 2 psoft
        (fun i => (rngSeed mt s).stream ((rngSeed mt s).pos + i)) 1 1 1
    else Zona.vacia) = Zona.libre
  rw [if_pos (by norm_num)]
  unfold generarEntornoAleatorio
  norm_num

/-- Claim C6: on every tick `t` with `t % K ≠ 0` (for an activation period
`K ≥ 1`; Python's `%` raises on `K = 0`), the Reflex Agent's whole cycle
answers `inactivo` with reason `no_en_ciclo` and leaves the monster — its
position included — unchanged, for every possible probability draw and
random choice, since the schedule gate is evaluated before either random
value is consumed. -/
theorem monstruo_no_programado (m : Monstruo) (e : EntornoOperacion) (t K : Nat) (draw : ℚ)
    (eleccion : Nat) (_hK : 0 < K) (ht : t % K ≠ 0) :
    (m.percibirDecidirActuar t e K draw eleccion).2.accion = AccionMonstruo.inactivo ∧
    (m.percibirDecidirActuar t e K draw eleccion).2.razon = RazonMonstruo.no_en_ciclo ∧
    (m.percibirDecidirActuar t e K draw eleccion).1 = m := by
  refine ⟨?_, ?_, ?_⟩ <;>
    simp [Monstruo.percibirDecidirActuar, Monstruo.decidirAccion, Monstruo.ejecutarAccion, ht]

/-- Witness for C6: the concrete monster at tick 1 with period 2 idles
with `no_en_ciclo` and stays put. -/
theorem monstruo_no_programado_witness :
    (monstruoW.percibirDecidirActuar 1 entornoW 2 0 0).2.accion = AccionMonstruo.inactivo ∧
    (monstruoW.percibirDecidirActuar 1 entornoW 2 0 0).2.razon = RazonMonstruo.no_en_ciclo ∧
    (monstruoW.percibirDecidirActuar 1 entornoW 2 0 0).1 = monstruoW :=
  monstruo_no_programado monstruoW entornoW 1 2 0 0 (by decide) (by decide)

/-- Claim C4: `_propulsor` never mutates the environment; a `ZONA_LIBRE`
forward cell moves the robot there and clears the collision flag; a
`ZONA_VACIA` forward cell (which `obtener_tipo_celda` also returns for
any out-of-bounds coordinate) leaves the position unchanged, sets the
collision flag and reports a collision outcome. -/
theorem propulsor_especificacion (r : Robot) (e : EntornoOperacion) :
    ((r.propulsor e).2.1 = e) ∧
    (e.obtenerTipoCelda r.celdaFrontal.1 r.celdaFrontal.2.1 r.celdaFrontal.2.2 = Zona.libre →
      ((r.propulsor e).1.x, (r.propulsor e).1.y, (r.propulsor e).1.z) = r.celdaFrontal ∧
      (r.propulsor e).1.vacuscopioActivado = false ∧
      (r.propulsor e).2.2.exito = true ∧
      (r.propulsor e).2.2.razon = Razon.avance_exitoso) ∧
    (e.obtenerTipoCelda r.celdaFrontal.1 r.celdaFrontal.2.1 r.celdaFrontal.2.2 = Zona.vacia →
      ((r.propulsor e).1.x, (r.propulsor e).1.y, (r.propulsor e).1.z) = (r.x, r.y, r.z) ∧
      (r.propulsor e).1.vacuscopioActivado = true ∧
      (r.propulsor e).2.2.exito = false ∧
      (r.propulsor e).2.2.razon = Razon.colision_con_pared ∧
      (r.propulsor e).2.2.detalle = Detalle.colision r.celdaFrontal) := by
  by_cases h : e.obtenerTipoCelda r.celdaFrontal.1 r.celdaFrontal.2.1 r.celdaFrontal.2.2 =
    Zona.libre
  · refine ⟨?_, ?_, ?_⟩ <;> simp [Robot.propulsor, h]
  · refine ⟨?_, ?_, ?_⟩ <;> simp [Robot.propulsor, h]

/-- Witness for C4: with the wall fixture, the forward cell of `robotW` is
free in `entornoW` (the robot advances) and blocked in `entornoParedW`
(the robot stays and the flag is set). -/
theorem propulsor_especificacion_witness :
    (((robotW.propulsor entornoW).1.x, (robotW.propulsor entornoW).1.y,
        (robotW.propulsor entornoW).1.z) = robotW.celdaFrontal ∧
      (robotW.propulsor entornoW).1.vacuscopioActivado = false ∧
      (robotW.propulsor entornoW).2.2.exito = true ∧
      (robotW.propulsor entornoW).2.2.razon = Razon.avance_exitoso) ∧
    (((robotW.propulsor entornoParedW).1.x, (robotW.propulsor entornoParedW).1.y,
        (robotW.propulsor entornoParedW).1.z) = (robotW.x, robotW.y, robotW.z) ∧
      (robotW.propulsor entornoParedW).1.vacuscopioActivado = true ∧
      (robotW.propulsor entornoParedW).2.2.exito = false ∧
      (robotW.propulsor entornoParedW).2.2.razon = Razon.colision_con_pared ∧
      (robotW.propulsor entornoParedW).2.2.detalle = Detalle.colision robotW.celdaFrontal) :=
  ⟨(propulsor_especificacion robotW entornoW).2.1 (by decide),
   (propulsor_especificacion robotW entornoParedW).2.2 (by decide)⟩

/-- Claim C7 (amended): in the `agentes` effector `_reorientador`, a
relative turn (`'+90'` or `'-90'`) always succeeds and always lands in the
four horizontal cardinals (a vertical start is first reset to `+X`), and
`'+90'` followed by `'-90'` restores any cardinal start; in the jhunior
variant the `'+90'`/`'-90'` round trip also restores every start, but its
rotation tables fix the vertical orientations instead of excluding them
(see the counterexample). -/
theorem rotacionCiclica_mem (o : Orientacion) :
    rotacionCiclica o Param.mas90 ∈ cicloXY ∧ rotacionCiclica o Param.menos90 ∈ cicloXY := by
  cases o <;> decide

theorem rotacionCiclica_vuelta (o : Orientacion) (h : o ∈ cicloXY) :
    rotacionCiclica (rotacionCiclica o Param.mas90) Param.menos90 = o := by
  revert h; cases o <;> decide

theorem reorientador_ori_mas (r : Robot) :
    (r.reorientador Param.mas90).1.orientacion = rotacionCiclica r.orientacion Param.mas90 := rfl

theorem reorientador_ori_menos (r : Robot) :
    (r.reorientador Param.menos90).1.orientacion =
      rotacionCiclica r.orientacion Param.menos90 := rfl

theorem reorientador_relativo (r : Robot) :
    ((r.reorientador Param.mas90).1.orientacion ∈ cicloXY) ∧
    ((r.reorientador Param.menos90).1.orientacion ∈ cicloXY) ∧
    ((r.reorientador Param.mas90).2.exito = true) ∧
    ((r.reorientador Param.menos90).2.exito = true) ∧
    (r.orientacion ∈ cicloXY →
      ((r.reorientador Param.mas90).1.reorientador Param.menos90).1.orientacion =
        r.orientacion) ∧
    (∀ o : Orientacion, jReorientador (jReorientador o Param.mas90) Param.menos90 = o) := by
  refine ⟨?_, ?_, rfl, rfl, ?_, fun o => ?_⟩
  · rw [reorientador_ori_mas]; exact (rotacionCiclica_mem r.orientacion).1
  · rw [reorientador_ori_menos]; exact (rotacionCiclica_mem r.orientacion).2
  · intro h
    rw [reorientador_ori_menos, reorientador_ori_mas]
    exact rotacionCiclica_vuelta r.orientacion h
  · cases o <;> rfl

/-- Witness for C7: starting from `+Y` (a cardinal), the `'+90'` then
`'-90'` turns restore `+Y`. -/
theorem reorientador_relativo_witness :
    ((robotW2.reorientador Param.mas90).1.reorientador Param.menos90).1.orientacion =
      robotW2.orientacion :=
  (reorientador_relativo robotW2).2.2.2.2.1 (by decide)

/-- Counterexample for C7 as frozen: in the jhunior variant a relative
`'+90'` turn from `+Z` yields `+Z`, a vertical orientation outside the
four horizontal cardinals. -/
theorem jhunior_rotacion_vertical_cex :
    jReorientador Orientacion.pZ Param.mas90 = Orientacion.pZ ∧
    Orientacion.pZ ∉ cicloXY := by
  decide

/-- Claim C5 (amended, for `EntornoOperacion.registrar_robot`):
registration answers `True` exactly when the target cell is not
`ZONA_VACIA` and no robot already occupies it; success appends exactly the
one new entry (grid and monster registry untouched); a rejection returns
the bare boolean `False` — not a typed reason — and leaves the whole
environment unchanged. -/
theorem registrar_robot_especificacion (e : EntornoOperacion) (robot : Robot) :
    ((e.registrarRobot robot).2 = true ↔
      (e.obtenerTipoCelda robot.x robot.y robot.z ≠ Zona.vacia ∧
       ∀ r ∈ e.robots, (r.x, r.y, r.z) ≠ (robot.x, robot.y, robot.z))) ∧
    ((e.registrarRobot robot).2 = true →
      (e.registrarRobot robot).1.robots = e.robots ++ [robot] ∧
      (e.registrarRobot robot).1.grid = e.grid ∧
      (e.registrarRobot robot).1.monstruos = e.monstruos) ∧
    ((e.registrarRobot robot).2 = false → (e.registrarRobot robot).1 = e) := by
  by_cases h1 : e.obtenerTipoCelda robot.x robot.y robot.z = Zona.vacia
  · have hreg : e.registrarRobot robot = (e, false) := by
      unfold EntornoOperacion.registrarRobot; rw [if_pos h1]
    rw [hreg]
    refine ⟨⟨fun hh => Bool.noConfusion hh, fun hh => absurd h1 hh.1⟩, ?_, fun _ => rfl⟩
    intro hh; exact Bool.noConfusion hh
  · by_cases h2 : e.robots.any fun r => (r.x, r.y, r.z) = (robot.x, robot.y, robot.z)
    · have hreg : e.registrarRobot robot = (e, false) := by
        unfold EntornoOperacion.registrarRobot; rw [if_neg h1, if_pos h2]
      rw [hreg]
      rw [List.any_eq_true] at h2
      obtain ⟨r0, hr0, hpos⟩ := h2
      rw [decide_eq_true_eq] at hpos
      refine ⟨⟨fun hh => Bool.noConfusion hh, fun hh => absurd hpos (hh.2 r0 hr0)⟩, ?_,
        fun _ => rfl⟩
      intro hh; exact Bool.noConfusion hh
    · have hreg : e.registrarRobot robot =
          ({ e with robots := e.robots ++ [robot] }, true) := by
        unfold EntornoOperacion.registrarRobot; rw [if_neg h1, if_neg h2]
      rw [hreg]
      have hforall : ∀ r ∈ e.robots, (r.x, r.y, r.z) ≠ (robot.x, robot.y, robot.z) := by
        intro r hr heq
        exact h2 (List.any_eq_true.2 ⟨r, hr, decide_eq_true heq⟩)
      refine ⟨⟨fun _ => ⟨h1, hforall⟩, fun _ => rfl⟩, fun _ => ⟨rfl, rfl, rfl⟩, ?_⟩
      intro hh; exact Bool.noConfusion hh

/-- Counterexample for C5 as frozen: in `Entorno3D.registrar_robot`
(environmet.py) a same-kind occupant does not cause rejection — with the
all-free 3³ grid, registering a robot at `(1, 1, 1)` and then a second
robot at the very same cell both succeed, even though the cell already
holds a same-kind agent when the second call is made. -/
theorem registrar_mismo_tipo_cex :
    ((entorno3dW.registrarRobot robotW).2 = true) ∧
    ((entorno3dW.registrarRobot robotW).1.robots.any
      (fun r => (r.x, r.y, r.z) = (robotW2.x, robotW2.y, robotW2.z)) = true) ∧
    (((entorno3dW.registrarRobot robotW).1.registrarRobot robotW2).2 = true) := by
  decide

/-- A cell the Vacuumator just marked reads back `ZONA_VACIA` through
`obtener_tipo_celda` (in bounds via the fresh mark, out of bounds by the
query's own convention). -/
theorem obtener_celda_marcada (e' : EntornoOperacion) (g0 : Int → Int → Int → Zona)
    (x y z : Int) (hg : e'.grid = setCelda g0 x y z Zona.vacia) :
    e'.obtenerTipoCelda x y z = Zona.vacia := by
  unfold EntornoOperacion.obtenerTipoCelda
  rw [hg]
  unfold setCelda
  rw [if_pos (⟨rfl, rfl, rfl⟩ : x = x ∧ y = y ∧ z = z)]
  exact ite_self _

/-- Folding `eliminar_monstruo` over a list of victims touches only the
monster registry: every surviving monster was already registered and has
an id different from every victim's. -/
theorem eliminar_fold_aux (ks : List Monstruo) :
    ∀ e : EntornoOperacion,
      ((ks.foldl (fun acc m => acc.eliminarMonstruo m.id) e).robots = e.robots) ∧
      ((ks.foldl (fun acc m => acc.eliminarMonstruo m.id) e).N = e.N) ∧
      ((ks.foldl (fun acc m => acc.eliminarMonstruo m.id) e).grid = e.grid) ∧
      (∀ m ∈ (ks.foldl (fun acc m => acc.eliminarMonstruo m.id) e).monstruos,
        m ∈ e.monstruos ∧ ∀ k ∈ ks, m.id ≠ k.id) := by
  induction ks with
  | nil => exact fun e => ⟨rfl, rfl, rfl, fun m hm => ⟨hm, fun k hk => absurd hk (by simp)⟩⟩
  | cons k resto ih =>
    intro e
    rw [List.foldl_cons]
    obtain ⟨h1, h2, h3, h4⟩ := ih (e.eliminarMonstruo k.id)
    refine ⟨h1.trans rfl, h2.trans rfl, h3.trans rfl, fun m hm => ?_⟩
    obtain ⟨hmem, hids⟩ := h4 m hm
    rw [EntornoOperacion.eliminarMonstruo] at hmem
    simp only [List.mem_filter, decide_eq_true_eq] at hmem
    exact ⟨hmem.1, fun k2 hk2 => by
      rcases List.mem_cons.1 hk2 with h | h
      · exact h ▸ hmem.2
      · exact hids k2 h⟩

/-- Claim C1 (amended): after `_vacuumator` fires, every co-located energy
entity is gone from the environment, the robot's former cell reports
`ZONA_VACIA`, and success is reported exactly when at least one energy
entity was removed — but the effector leaves the robot registry (and the
robot value itself) untouched: self-removal is NOT performed by the
effector (the headless driver never removes the robot; only the manual-3D
driver does, and only after a successful destroy). -/
theorem vacuumator_especificacion (e : EntornoOperacion) (r : Robot) :
    ((r.vacuumator e).2.1.robots = e.robots) ∧
    ((r.vacuumator e).1 = r) ∧
    ((r.vacuumator e).2.1.obtenerTipoCelda r.x r.y r.z = Zona.vacia) ∧
    ((r.vacuumator e).2.2.exito = true ↔
      ∃ m ∈ e.monstruos, (m.x, m.y, m.z) = (r.x, r.y, r.z)) ∧
    (∀ m ∈ (r.vacuumator e).2.1.monstruos, (m.x, m.y, m.z) ≠ (r.x, r.y, r.z)) := by
  obtain ⟨haux1, haux2, _, haux4⟩ :=
    eliminar_fold_aux (e.monstruos.filter fun m => (m.x, m.y, m.z) = (r.x, r.y, r.z)) e
  refine ⟨haux1, rfl, ?_, ?_, ?_⟩
  · exact obtener_celda_marcada _ _ r.x r.y r.z rfl
  · show (!(e.monstruos.filter fun m =>
        (m.x, m.y, m.z) = (r.x, r.y, r.z)).isEmpty) = true ↔ _
    rw [Bool.not_eq_true', List.isEmpty_eq_false_iff_exists_mem]
    constructor
    · rintro ⟨m, hm⟩
      rw [List.mem_filter, decide_eq_true_eq] at hm
      exact ⟨m, hm.1, hm.2⟩
    · rintro ⟨m, hm, hco⟩
      exact ⟨m, List.mem_filter.2 ⟨hm, decide_eq_true hco⟩⟩
  · intro m hm hco
    obtain ⟨hmem, hids⟩ := haux4 m hm
    exact hids m (List.mem_filter.2 ⟨hmem, decide_eq_true hco⟩) rfl

/-- Counterexample for C1 as frozen: with `robotW` and `monstruoW` sharing
cell `(1, 1, 1)` of the all-free 3³ environment, the Destroy fires
successfully (the monster is removed and the cell becomes `ZONA_VACIA`),
yet the acting robot — id 1 — is still in the environment's robot
registry afterwards: self-removal does not happen. -/
theorem vacuumator_sin_autodestruccion_cex :
    ((robotW.vacuumator entornoW).2.2.exito = true) ∧
    ((robotW.vacuumator entornoW).2.1.monstruos = []) ∧
    ((robotW.vacuumator entornoW).2.1.obtenerTipoCelda 1 1 1 = Zona.vacia) ∧
    ((robotW.vacuumator entornoW).2.1.robots = [robotW]) ∧
    robotW.id = 1 := by
  refine ⟨rfl, rfl, ?_, rfl, rfl⟩
  show (if 0 ≤ (1 : Int) ∧ (1 : Int) < 3 ∧ 0 ≤ (1 : Int) ∧ (1 : Int) < 3 ∧ 0 ≤ (1 : Int) ∧
      (1 : Int) < 3 then _ else Zona.vacia) = Zona.vacia
  rw [if_pos (by norm_num)]
  rfl

/-- Every value `_detectar_monstruos` can return has one of two shapes:
nothing detected (`(False, None, None)`) or a detection with a relative
position class and a direction label. -/
theorem detectarMonstruosLista_forma (pos : Coord) (ms : List Monstruo) (d : Coord) :
    ∀ L : List Orientacion,
      detectarMonstruosLista pos ms d L =
          { detectado := false, posRel := none, dirLabel := none } ∨
        ∃ q o, detectarMonstruosLista pos ms d L =
          { detectado := true, posRel := some q, dirLabel := some o } := by
  intro L
  induction L with
  | nil => exact Or.inl rfl
  | cons o resto ih =>
    unfold detectarMonstruosLista
    by_cases h1 : orientVect o = (-d.1, -d.2.1, -d.2.2)
    · rw [if_pos h1]; exact ih
    · rw [if_neg h1]
      by_cases h2 : (ms.any fun m =>
          (m.x, m.y, m.z) = (pos.1 + (orientVect o).1, pos.2.1 + (orientVect o).2.1,
            pos.2.2 + (orientVect o).2.2)) = true
      · rw [if_pos h2]
        by_cases h3 : orientVect o = d
        · rw [if_pos h3]; exact Or.inr ⟨PosRel.alFrente, o, rfl⟩
        · rw [if_neg h3]; exact Or.inr ⟨PosRel.alLado, o, rfl⟩
      · rw [if_neg h2]; exact ih

/-- With the energometro set, `decidir_accion` answers `VACUUMATOR` for
every realizable percept (any roboscanner and vacuscopio value, any
monstroscopio shape): the 12 energometro rows of `tabla_mapeo` all map to
the Vacuumator. -/
theorem decidir_con_energometro (r : Robot) (p : Percepcion) (hE : p.energometro = true)
    (hsh : p.monstroscopio = { detectado := false, posRel := none, dirLabel := none } ∨
      ∃ q o, p.monstroscopio = { detectado := true, posRel := some q, dirLabel := some o }) :
    (r.decidirAccion p).1.accion = Accion.VACUUMATOR := by
  obtain ⟨g, E, R, V, mo, pa⟩ := p
  simp only [] at hE
  subst hE
  rcases hsh with h | ⟨q, o, h⟩ <;> simp only [] at h <;> subst h
  · cases R <;> cases V <;> rfl
  · cases R <;> cases V <;> cases q <;> rfl

/-- Claim C3: a percept whose same-cell energy detector is true always
selects the destroy effector, whatever the other channels read — in the
`agentes` table-driven procedure (for every percept `percibir` can
produce) and in the jhunior priority chain (energometro is priority 0). -/
theorem energometro_prioridad :
    (∀ (r : Robot) (robots : List Robot) (monstruos : List Monstruo),
      (r.percibir robots monstruos).energometro = true →
      (r.decidirAccion (r.percibir robots monstruos)).1.accion = Accion.VACUUMATOR) ∧
    (∀ (paredes : List Coord) (p : JPercepcion),
      p.energometro = true → (jDecideAction paredes p).accion = Accion.VACUUMATOR) := by
  constructor
  · intro r robots ms hE
    refine decidir_con_energometro r _ hE ?_
    exact detectarMonstruosLista_forma (r.x, r.y, r.z) ms (orientVect r.orientacion)
      ordenOrientaciones
  · intro paredes p hE
    simp [jDecideAction, hE]

/-- Witness for C3: a robot sharing its cell with a monster perceives
`energometro = True` and decides `VACUUMATOR`. -/
theorem energometro_prioridad_witness :
    (robotW.decidirAccion (robotW.percibir [] [monstruoW])).1.accion = Accion.VACUUMATOR :=
  energometro_prioridad.1 robotW [] [monstruoW] (by decide)

/-- The candidate scan only answers `some (l, reps)` when `reps` reached
the threshold. -/
theorem buscarBucle_umbral (rev : List RegistroPA) (u : Nat) :
    ∀ (ls : List Nat) (l reps : Nat), buscarBucle rev u ls = some (l, reps) → u ≤ reps := by
  intro ls
  induction ls with
  | nil => intro l reps h; exact absurd h (by simp [buscarBucle])
  | cons c resto ih =>
    intro l reps h
    unfold buscarBucle at h
    by_cases hc : u ≤ chunkReps (rev.take c) rev.length rev
    · rw [if_pos hc] at h
      have h2 : chunkReps (rev.take c) rev.length rev = reps :=
        congrArg Prod.snd (Option.some.inj h)
      exact h2 ▸ hc
    · rw [if_neg hc] at h
      exact ih l reps h

/-- Claim C9 (spec-modelled): loop detection never reports a repetition
count below the configured threshold, and never reports anything on a
history shorter than `minimum_pattern_length * minimum_repetitions`
records (the candidate-length range is then empty). -/
theorem deteccion_bucles_especificacion (cfg : ConfigBucles) :
    (∀ (hist : List RegistroPA) (l reps : Nat),
      detectarBucle hist cfg = some (l, reps) → cfg.umbral ≤ reps) ∧
    (∀ hist : List RegistroPA,
      hist.length < cfg.longitudMinima * cfg.repeticionesMinimas →
      detectarBucle hist cfg = none) := by
  constructor
  · intro hist l reps h
    exact buscarBucle_umbral hist.reverse cfg.umbral _ l reps h
  · intro hist h
    have h0 : 0 < cfg.repeticionesMinimas := by
      rcases Nat.eq_zero_or_pos cfg.repeticionesMinimas with h0 | h0
      · rw [h0, Nat.mul_zero] at h; exact absurd h (Nat.not_lt_zero _)
      · exact h0
    have hdiv : hist.length / cfg.repeticionesMinimas < cfg.longitudMinima :=
      (Nat.div_lt_iff_lt_mul h0).2 h
    have hz : hist.length / cfg.repeticionesMinimas + 1 - cfg.longitudMinima = 0 := by omega
    show buscarBucle hist.reverse cfg.umbral (List.range' cfg.longitudMinima
      (hist.length / cfg.repeticionesMinimas + 1 - cfg.longitudMinima)) = none
    rw [hz]
    rfl

/-- Witness for C9: the two-record history `[registroW, registroW]` is
reported as a loop of length 1 repeated twice (so the threshold bound is
attained), and the empty history (shorter than `1 * 2`) yields no
report. -/
theorem deteccion_bucles_witness :
    (2 : Nat) ≤ 2 ∧
    detectarBucle [] { longitudMinima := 1, repeticionesMinimas := 2, umbral := 2 } = none :=
  ⟨(deteccion_bucles_especificacion ⟨1, 2, 2⟩).1 [registroW, registroW] 1 2 (by decide),
   (deteccion_bucles_especificacion ⟨1, 2, 2⟩).2 [] (by decide)⟩

end Agentes3D
